import Mathlib

/-
Verification of the subprocess execution core (inspect_ai/util/_subprocess.py).

The module is embedded shallowly: Python byte strings become `List Nat`,
an async stream becomes the list of chunks successive `stream.read(8192)`
calls return (the empty chunk marks end of stream), and the observable
side effects of one invocation (spawn, stdin writes, kills, concurrency
slot handling) are recorded as an explicit event trace. The behaviour of
the operating system and of the child process, which the Python code only
observes through `asyncio`, is captured by the `ChildBehavior` and
`WorldEnv` environment records.
-/

namespace Inspect

/-- Execution result from a call to `subprocess()` (dataclass ExecResult). -/
structure ExecResult (T : Type) where
  success : Bool
  returncode : Int
  stdout : T
  stderr : T
deriving DecidableEq, Repr

/-- The union `ExecResult[str] | ExecResult[bytes]` returned by `subprocess`,
selected by the `text` parameter. -/
inductive ProcResult where
  | text (r : ExecResult String)
  | binary (r : ExecResult (List Nat))
deriving DecidableEq, Repr

/-- The `success` field of whichever result variant was produced. -/
def ProcResult.successOf : ProcResult → Bool
  | ProcResult.text r => r.success
  | ProcResult.binary r => r.success

/-- The `returncode` field of whichever result variant was produced. -/
def ProcResult.returncodeOf : ProcResult → Int
  | ProcResult.text r => r.returncode
  | ProcResult.binary r => r.returncode

/-- The raw stdout bytes, available in binary mode. -/
def ProcResult.stdoutBytes : ProcResult → Option (List Nat)
  | ProcResult.text _ => none
  | ProcResult.binary r => some r.stdout

/-- The raw stderr bytes, available in binary mode. -/
def ProcResult.stderrBytes : ProcResult → Option (List Nat)
  | ProcResult.text _ => none
  | ProcResult.binary r => some r.stderr

/-- True when the stdout field of the result is empty
("" in text mode, empty bytes in binary mode). -/
def ProcResult.stdoutEmpty : ProcResult → Bool
  | ProcResult.text r => r.stdout == ""
  | ProcResult.binary r => r.stdout == []

/-- True when the stderr field of the result is empty
("" in text mode, empty bytes in binary mode). -/
def ProcResult.stderrEmpty : ProcResult → Bool
  | ProcResult.text r => r.stderr == ""
  | ProcResult.binary r => r.stderr == []

/-- The `args` parameter: either a shell string (create_subprocess_shell)
or an argument vector (create_subprocess_exec). -/
inductive CommandArgs where
  | shellStr (s : String)
  | argv (v : List String)
deriving DecidableEq, Repr

/-- The keyword parameters of `subprocess` (the `input` field holds the
payload after the `input.encode()` normalisation at the top of the body). -/
structure SubprocessConfig where
  args : CommandArgs
  text : Bool := true
  input : Option (List Nat) := none
  cwd : Option String := none
  env : List (String × String) := []
  capture_output : Bool := true
  output_limit : Option Nat := none
  timeout : Option Int := none
deriving DecidableEq, Repr

/-- Deterministic model of everything the OS and the child contribute to
one invocation: the chunk sequences the two capture pipes deliver, the
exit status `proc.wait()` reports on a natural exit and after a kill,
whether the pipeline finishes before a configured deadline, and the
`proc.returncode` value observed after `terminate()` plus the grace sleep
(none when the child is still running at that point). -/
structure ChildBehavior where
  stdoutChunks : List (List Nat)
  stderrChunks : List (List Nat)
  exitCode : Int
  killExitCode : Int
  completesBeforeDeadline : Bool
  graceExitCode : Option Int
deriving DecidableEq, Repr

/-- The environment of a whole `subprocess` call: the parent process
environment `os.environ`, whether process creation itself raises, and the
behaviour of the child once spawned. -/
structure WorldEnv where
  environ : List (String × String)
  spawnFails : Bool
  child : ChildBehavior
deriving DecidableEq, Repr

/-- Observable events of one invocation, in program order. -/
inductive Event where
  | acquireSlot (resource : String) (limit : Nat)
  | releaseSlot (resource : String)
  | spawnChild (env : List (String × String))
  | stdinWrite (data : List Nat)
  | stdinDrain
  | stdinClose
  | terminateChild
  | sleepSeconds (n : Nat)
  | killChild
deriving DecidableEq, Repr, BEq

/-- Insert key k with value v into a Python dict represented as an ordered
association list: replace the first binding of k in place, else append. -/
def dictSet : List (String × String) → String → String → List (String × String)
  | [], k, v => [(k, v)]
  | p :: rest, k, v => if p.1 = k then (k, v) :: rest else p :: dictSet rest k v

/-- Lookup of key k in an ordered association list (first binding wins). -/
def dictLookup : List (String × String) → String → Option String
  | [], _ => none
  | p :: rest, k => if p.1 = k then some p.2 else dictLookup rest k

/-- Python dict unpacking of b over a: every binding of b is inserted into
a copy of a, so b overrides a on common keys. This embeds the
`env=` argument built from os.environ and the caller env in run_command. -/
def dictMerge (a b : List (String × String)) : List (String × String) :=
  b.foldl (fun acc p => dictSet acc p.1 p.2) a

/-- The environment handed to create_subprocess_shell / create_subprocess_exec:
the parent environment with the caller-supplied variables merged over it. -/
def spawnedEnv (environ : List (String × String)) (cfg : SubprocessConfig) :
    List (String × String) :=
  dictMerge environ cfg.env

/-- How a standard stream of the child is wired at spawn time. -/
inductive Stdio where
  | pipe
  | inherit
deriving DecidableEq, Repr

/-- stdout wiring: PIPE if capture_output else None (inherited). -/
def stdoutWiring (capture_output : Bool) : Stdio :=
  if capture_output then Stdio.pipe else Stdio.inherit

/-- stderr wiring: PIPE if capture_output else None (inherited). -/
def stderrWiring (capture_output : Bool) : Stdio :=
  if capture_output then Stdio.pipe else Stdio.inherit

/-- The `proc.stdout` stream reader: present only when stdout was piped. -/
def procStdout (capture_output : Bool) (child : ChildBehavior) :
    Option (List (List Nat)) :=
  if capture_output then some child.stdoutChunks else none

/-- The `proc.stderr` stream reader: present only when stderr was piped. -/
def procStderr (capture_output : Bool) (child : ChildBehavior) :
    Option (List (List Nat)) :=
  if capture_output then some child.stderrChunks else none

/-- The stdin block of run_command: `proc.stdin` is always a pipe, so when
an input payload is present it is written, drained and the stream closed,
and otherwise the stream is closed immediately. -/
def stdinEvents (input : Option (List Nat)) : List Event :=
  match input with
  | some data => [Event.stdinWrite data, Event.stdinDrain, Event.stdinClose]
  | none => [Event.stdinClose]

/-- All bytes written to stdin over a trace, in order. -/
def stdinBytesWritten (evts : List Event) : List Nat :=
  evts.foldl
    (fun acc e =>
      match e with
      | Event.stdinWrite data => acc ++ data
      | _ => acc)
    []

/-- The while loop of read_stream: read a chunk (at most 8192 bytes),
stop at end of stream, append the chunk to the accumulated output, and
when an output limit is configured and the accumulated size exceeds it,
kill the process and stop. Returns the accumulated bytes and whether
`proc.kill()` was invoked. -/
def read_stream_loop (output_limit : Option Nat) :
    List (List Nat) → List Nat → List Nat × Bool
  | [], output => (output, false)
  | chunk :: rest, output =>
    if chunk = [] then (output, false)
    else
      let output2 := output ++ chunk
      match output_limit with
      | some lim =>
        if output2.length > lim then (output2, true)
        else read_stream_loop output_limit rest output2
      | none => read_stream_loop output_limit rest output2

/-- read_stream: returns empty bytes for an absent stream, else drains the
stream through the chunked loop starting from an empty buffer. -/
def read_stream (output_limit : Option Nat) (stream : Option (List (List Nat))) :
    List Nat × Bool :=
  match stream with
  | none => ([], false)
  | some chunks => read_stream_loop output_limit chunks []

/-- kill events produced by the two concurrent read_stream calls. -/
def killEvents (killedOut killedErr : Bool) : List Event :=
  (if killedOut then [Event.killChild] else []) ++
    (if killedErr then [Event.killChild] else [])

/-- Result and trace of the body of run_command after the process handle
has been yielded: write stdin, gather both stream reads, wait for the
exit status and assemble the ExecResult in the requested mode. The
`decode` parameter stands for `bytes.decode()`. -/
def run_command (decode : List Nat → String) (environ : List (String × String))
    (cfg : SubprocessConfig) (child : ChildBehavior) : ProcResult × List Event :=
  let outRead := read_stream cfg.output_limit (procStdout cfg.capture_output child)
  let errRead := read_stream cfg.output_limit (procStderr cfg.capture_output child)
  let killed := outRead.2 || errRead.2
  let returncode : Int := if killed then child.killExitCode else child.exitCode
  let success := returncode == 0
  let result :=
    if cfg.text then
      ProcResult.text
        { success := success
          returncode := returncode
          stdout := if cfg.capture_output then decode outRead.1 else ""
          stderr := if cfg.capture_output then decode errRead.1 else "" }
    else
      ProcResult.binary
        { success := success
          returncode := returncode
          stdout := if cfg.capture_output then outRead.1 else []
          stderr := if cfg.capture_output then errRead.1 else [] }
  (result,
    Event.spawnChild (spawnedEnv environ cfg) ::
      (stdinEvents cfg.input ++ killEvents outRead.2 errRead.2))

/-- Python truthiness of the `timeout: int | None` parameter, as tested by
`if timeout:` in run_command_timeout. -/
def timeoutTruthy : Option Int → Bool
  | none => false
  | some n => n != 0

/-- The termination sequence of the except-branch of run_command_timeout:
`proc.terminate()`, a two second sleep, then `proc.kill()` exactly when
`proc.returncode` is still None after the grace period. -/
def terminationEvents (child : ChildBehavior) : List Event :=
  [Event.terminateChild, Event.sleepSeconds 2] ++
    (if child.graceExitCode.isNone then [Event.killChild] else [])

/-- Outcome of run_command_timeout: a result, or the raised TimeoutError. -/
inductive SubprocessOutcome where
  | ok (r : ProcResult)
  | timeoutError
deriving DecidableEq, Repr

/-- run_command_timeout: spawn (the first step of the generator), then
either await the result directly (no truthy timeout configured), or race
it against the deadline; when the deadline wins, run the termination
sequence and raise TimeoutError. Events produced by the pipeline before
an expired deadline are elided from the trace. -/
def run_command_timeout (decode : List Nat → String)
    (environ : List (String × String)) (cfg : SubprocessConfig)
    (child : ChildBehavior) : SubprocessOutcome × List Event :=
  if timeoutTruthy cfg.timeout then
    if child.completesBeforeDeadline then
      let ro := run_command decode environ cfg child
      (SubprocessOutcome.ok ro.1, ro.2)
    else
      (SubprocessOutcome.timeoutError,
        Event.spawnChild (spawnedEnv environ cfg) :: terminationEvents child)
  else
    let ro := run_command decode environ cfg child
    (SubprocessOutcome.ok ro.1, ro.2)

/-- Outcome of a whole `subprocess` call. -/
inductive InvocationOutcome where
  | ok (r : ProcResult)
  | timeoutError
  | spawnError
deriving DecidableEq, Repr

/-- Modelled from the spec: the `concurrency` async context manager from
the sibling _concurrency module (not part of the sources here). Per the
spec it is a named counting semaphore: entering the async-with block
acquires one slot for the named resource under the given limit before the
body runs, and exiting the block releases that slot exactly once on every
exit path, normal or exceptional. Here that contract is the bracketing of
the body trace by one acquire and one release event. -/
def concurrencyBracket (resource : String) (limit : Nat)
    (body : List Event) : List Event :=
  Event.acquireSlot resource limit :: body ++ [Event.releaseSlot resource]

/-- The full `subprocess` call: acquire a "subprocesses" slot under the
current configured maximum, run run_command_timeout inside the bracket
(a spawn failure raises out of the body before any further event), and
release the slot when the block exits. -/
def subprocess (decode : List Nat → String) (maxSubs : Nat)
    (cfg : SubprocessConfig) (w : WorldEnv) : InvocationOutcome × List Event :=
  let inner : InvocationOutcome × List Event :=
    if w.spawnFails then (InvocationOutcome.spawnError, [])
    else
      match run_command_timeout decode w.environ cfg w.child with
      | (SubprocessOutcome.ok r, evts) => (InvocationOutcome.ok r, evts)
      | (SubprocessOutcome.timeoutError, evts) =>
          (InvocationOutcome.timeoutError, evts)
  (inner.1, concurrencyBracket "subprocesses" maxSubs inner.2)

/-- default_max_subprocesses: `cpus if cpus else 1` over `os.cpu_count()`,
which may report None. -/
def default_max_subprocesses (cpu_count : Option Nat) : Nat :=
  match cpu_count with
  | some cpus => if cpus != 0 then cpus else 1
  | none => 1

/-- init_max_subprocesses: the value stored into the context variable,
`max_subprocesses if max_subprocesses else default_max_subprocesses()`. -/
def init_max_subprocesses (cpu_count : Option Nat)
    (max_subprocesses : Option Nat) : Nat :=
  match max_subprocesses with
  | some m => if m != 0 then m else default_max_subprocesses cpu_count
  | none => default_max_subprocesses cpu_count

/-- Operations on the process-wide configuration state: re-initialise the
maximum, or start an invocation (which reads the maximum at
slot-acquisition time). -/
inductive ConfigOp where
  | initMax (v : Option Nat)
  | invoke
deriving DecidableEq, Repr

/-- The limit observed by each successive invocation while a sequence of
configuration operations runs, starting from state s (the context
variable value). -/
def observedLimits (cpu_count : Option Nat) :
    List ConfigOp → Nat → List Nat
  | [], _ => []
  | ConfigOp.initMax v :: rest, _ =>
      observedLimits cpu_count rest (init_max_subprocesses cpu_count v)
  | ConfigOp.invoke :: rest, s => s :: observedLimits cpu_count rest s

/-- The configuration state after a sequence of operations. -/
def configState (cpu_count : Option Nat) : List ConfigOp → Nat → Nat
  | [], s => s
  | ConfigOp.initMax v :: rest, _ =>
      configState cpu_count rest (init_max_subprocesses cpu_count v)
  | ConfigOp.invoke :: rest, s => configState cpu_count rest s

/-- Recogniser for slot acquisition events. -/
def isAcquireEvt : Event → Bool
  | Event.acquireSlot _ _ => true
  | _ => false

/-- Recogniser for slot release events. -/
def isReleaseEvt : Event → Bool
  | Event.releaseSlot _ => true
  | _ => false

/-- Whether the child is still running once the timeout cleanup trace has
run: it was still running after the grace period and no kill was sent. -/
def runningAfterCleanup (child : ChildBehavior) (evts : List Event) : Bool :=
  child.graceExitCode.isNone && !(evts.contains Event.killChild)

/-! ### Helper lemmas about the dictionary model -/

lemma dictLookup_dictSet_self (d : List (String × String)) (k v : String) :
    dictLookup (dictSet d k v) k = some v := by
  induction d with
  | nil => simp [dictSet, dictLookup]
  | cons p rest ih =>
    by_cases h : p.1 = k
    · simp [dictSet, dictLookup, h]
    · simp [dictSet, dictLookup, h, ih]

lemma dictLookup_dictSet_ne (d : List (String × String)) (k k2 v : String)
    (hne : k2 ≠ k) : dictLookup (dictSet d k2 v) k = dictLookup d k := by
  induction d with
  | nil => simp [dictSet, dictLookup, hne]
  | cons p rest ih =>
    by_cases h : p.1 = k2
    · simp [dictSet, dictLookup, h, hne]
    · by_cases h2 : p.1 = k
      · simp [dictSet, dictLookup, h, h2, Ne.symm hne]
      · simp [dictSet, dictLookup, h, h2, ih]

lemma dictLookup_eq_none_of_not_mem (d : List (String × String)) (k : String)
    (h : k ∉ d.map Prod.fst) : dictLookup d k = none := by
  induction d with
  | nil => simp [dictLookup]
  | cons p rest ih =>
    simp only [List.map_cons, List.mem_cons] at h
    push_neg at h
    have hp : p.1 ≠ k := fun hpk => h.1 hpk.symm
    simp [dictLookup, hp, ih h.2]

lemma dictMerge_cons (a : List (String × String)) (p : String × String)
    (rest : List (String × String)) :
    dictMerge a (p :: rest) = dictMerge (dictSet a p.1 p.2) rest := rfl

lemma dictMerge_lookup (b a : List (String × String)) (k : String)
    (hnd : (b.map Prod.fst).Nodup) :
    dictLookup (dictMerge a b) k =
      match dictLookup b k with
      | some v => some v
      | none => dictLookup a k := by
  induction b generalizing a with
  | nil => simp [dictMerge, dictLookup]
  | cons p rest ih =>
    simp only [List.map_cons, List.nodup_cons] at hnd
    rw [dictMerge_cons, ih _ hnd.2]
    by_cases h : p.1 = k
    · have hrest : dictLookup rest k = none := by
        apply dictLookup_eq_none_of_not_mem
        rw [← h]
        exact hnd.1
      simp [dictLookup, h, hrest, h ▸ dictLookup_dictSet_self a p.1 p.2]
    · have hset := dictLookup_dictSet_ne a k p.1 p.2 h
      simp [dictLookup, h, hset]

/-! ### Helper lemmas about the chunked stream reader -/

lemma read_stream_loop_kill_step (lim : Nat) (chunk : List Nat)
    (rest : List (List Nat)) (output : List Nat) (hc : chunk ≠ [])
    (hgt : lim < (output ++ chunk).length) :
    read_stream_loop (some lim) (chunk :: rest) output =
      (output ++ chunk, true) := by
  simp only [List.length_append] at hgt
  simp [read_stream_loop, hc, hgt]

lemma read_stream_loop_go_step (lim : Nat) (chunk : List Nat)
    (rest : List (List Nat)) (output : List Nat) (hc : chunk ≠ [])
    (hle : (output ++ chunk).length ≤ lim) :
    read_stream_loop (some lim) (chunk :: rest) output =
      read_stream_loop (some lim) rest (output ++ chunk) := by
  have hgt : ¬ lim < output.length + chunk.length := by
    simp only [List.length_append] at hle
    omega
  simp [read_stream_loop, hc, hgt]

lemma read_stream_loop_length_le (lim : Nat) (chunks : List (List Nat))
    (output : List Nat) (hchunks : ∀ c ∈ chunks, c.length ≤ 8192)
    (hout : output.length ≤ lim) :
    (read_stream_loop (some lim) chunks output).1.length ≤ lim + 8192 := by
  induction chunks generalizing output with
  | nil => simpa [read_stream_loop] using Nat.le_add_right_of_le hout
  | cons chunk rest ih =>
    by_cases hc : chunk = []
    · simpa [read_stream_loop, hc] using Nat.le_add_right_of_le hout
    · have hclen : chunk.length ≤ 8192 := hchunks chunk (by simp)
      have hrest : ∀ c ∈ rest, c.length ≤ 8192 := fun c hcm =>
        hchunks c (by simp [hcm])
      by_cases hgt : lim < (output ++ chunk).length
      · rw [read_stream_loop_kill_step lim chunk rest output hc hgt]
        simp only [List.length_append]
        exact Nat.add_le_add hout hclen
      · have hle : (output ++ chunk).length ≤ lim := Nat.le_of_not_lt hgt
        rw [read_stream_loop_go_step lim chunk rest output hc hle]
        exact ih (output ++ chunk) hrest (by simpa using hle)

lemma read_stream_loop_killed_iff (lim : Nat) (chunks : List (List Nat))
    (output : List Nat) (hout : output.length ≤ lim) :
    (read_stream_loop (some lim) chunks output).2 = true ↔
      lim < (read_stream_loop (some lim) chunks output).1.length := by
  induction chunks generalizing output with
  | nil =>
    simp [read_stream_loop, Nat.not_lt_of_le hout]
  | cons chunk rest ih =>
    by_cases hc : chunk = []
    · simp [read_stream_loop, hc, Nat.not_lt_of_le hout]
    · by_cases hgt : lim < (output ++ chunk).length
      · rw [read_stream_loop_kill_step lim chunk rest output hc hgt]
        simpa using hgt
      · have hle : (output ++ chunk).length ≤ lim := Nat.le_of_not_lt hgt
        rw [read_stream_loop_go_step lim chunk rest output hc hle]
        exact ih (output ++ chunk) (by simpa using hle)

lemma read_stream_loop_take (lim : Option Nat) (chunks : List (List Nat))
    (output : List Nat) :
    ∃ k, (read_stream_loop lim chunks output).1 =
      output ++ (chunks.take k).flatten := by
  induction chunks generalizing output with
  | nil => exact ⟨0, by simp [read_stream_loop]⟩
  | cons chunk rest ih =>
    by_cases hc : chunk = []
    · exact ⟨0, by simp [read_stream_loop, hc]⟩
    · match lim with
      | none =>
        obtain ⟨k, hk⟩ := ih (output ++ chunk)
        refine ⟨k + 1, ?_⟩
        rw [show read_stream_loop none (chunk :: rest) output =
          read_stream_loop none rest (output ++ chunk) by
            simp [read_stream_loop, hc]]
        simpa [List.append_assoc] using hk
      | some l =>
        by_cases hgt : l < (output ++ chunk).length
        · refine ⟨1, ?_⟩
          rw [read_stream_loop_kill_step l chunk rest output hc hgt]
          simp
        · have hle : (output ++ chunk).length ≤ l := Nat.le_of_not_lt hgt
          obtain ⟨k, hk⟩ := ih (output ++ chunk)
          refine ⟨k + 1, ?_⟩
          rw [read_stream_loop_go_step l chunk rest output hc hle]
          simpa [List.append_assoc] using hk

lemma read_stream_loop_drain (lim : Nat) (chunks : List (List Nat))
    (output : List Nat) (hne : ∀ c ∈ chunks, c ≠ [])
    (hlen : (output ++ chunks.flatten).length ≤ lim) :
    read_stream_loop (some lim) chunks output =
      (output ++ chunks.flatten, false) := by
  induction chunks generalizing output with
  | nil => simp [read_stream_loop]
  | cons chunk rest ih =>
    have hc : chunk ≠ [] := hne chunk (by simp)
    have hle : (output ++ chunk).length ≤ lim := by
      simp only [List.flatten_cons, List.length_append] at hlen ⊢
      omega
    have hrest : ∀ c ∈ rest, c ≠ [] := fun c hcr => hne c (by simp [hcr])
    have hlen2 : ((output ++ chunk) ++ rest.flatten).length ≤ lim := by
      simp only [List.flatten_cons, List.length_append] at hlen ⊢
      omega
    rw [read_stream_loop_go_step lim chunk rest output hc hle,
      ih (output ++ chunk) hrest hlen2]
    simp [List.append_assoc]

/-! ### Helper lemmas about the event traces -/

lemma run_command_events_eq (decode : List Nat → String)
    (environ : List (String × String)) (cfg : SubprocessConfig)
    (child : ChildBehavior) :
    (run_command decode environ cfg child).2 =
      Event.spawnChild (spawnedEnv environ cfg) ::
        (stdinEvents cfg.input ++
          killEvents
            (read_stream cfg.output_limit (procStdout cfg.capture_output child)).2
            (read_stream cfg.output_limit (procStderr cfg.capture_output child)).2) :=
  rfl

lemma run_command_timeout_events_eq (decode : List Nat → String)
    (environ : List (String × String)) (cfg : SubprocessConfig)
    (child : ChildBehavior) :
    (run_command_timeout decode environ cfg child).2 =
      if timeoutTruthy cfg.timeout && !child.completesBeforeDeadline then
        Event.spawnChild (spawnedEnv environ cfg) :: terminationEvents child
      else (run_command decode environ cfg child).2 := by
  unfold run_command_timeout
  by_cases ht : timeoutTruthy cfg.timeout <;>
    by_cases hd : child.completesBeforeDeadline <;> simp [ht, hd]

lemma stdinEvents_no_slot (input : Option (List Nat)) :
    (stdinEvents input).countP isAcquireEvt = 0 ∧
      (stdinEvents input).countP isReleaseEvt = 0 := by
  cases input <;> exact ⟨rfl, rfl⟩

lemma killEvents_no_slot (a b : Bool) :
    (killEvents a b).countP isAcquireEvt = 0 ∧
      (killEvents a b).countP isReleaseEvt = 0 := by
  cases a <;> cases b <;> exact ⟨rfl, rfl⟩

lemma terminationEvents_no_slot (child : ChildBehavior) :
    (terminationEvents child).countP isAcquireEvt = 0 ∧
      (terminationEvents child).countP isReleaseEvt = 0 := by
  cases h : child.graceExitCode.isNone <;>
    simp [terminationEvents, h, isAcquireEvt, isReleaseEvt]

lemma run_command_timeout_no_slot (decode : List Nat → String)
    (environ : List (String × String)) (cfg : SubprocessConfig)
    (child : ChildBehavior) :
    ((run_command_timeout decode environ cfg child).2).countP isAcquireEvt = 0 ∧
      ((run_command_timeout decode environ cfg child).2).countP isReleaseEvt = 0 := by
  rw [run_command_timeout_events_eq]
  by_cases h : timeoutTruthy cfg.timeout && !child.completesBeforeDeadline
  · obtain ⟨h1, h2⟩ := terminationEvents_no_slot child
    constructor <;> simp [h, List.countP_cons, h1, h2, isAcquireEvt, isReleaseEvt]
  · obtain ⟨h1, h2⟩ := stdinEvents_no_slot cfg.input
    obtain ⟨h3, h4⟩ := killEvents_no_slot
      (read_stream cfg.output_limit (procStdout cfg.capture_output child)).2
      (read_stream cfg.output_limit (procStderr cfg.capture_output child)).2
    constructor <;>
      simp [h, run_command_events_eq, List.countP_cons, List.countP_append,
        h1, h2, h3, h4, isAcquireEvt, isReleaseEvt]

lemma concurrencyBracket_head (r : String) (m : Nat) (body : List Event) :
    (concurrencyBracket r m body).head? = some (Event.acquireSlot r m) := rfl

lemma concurrencyBracket_getLast (r : String) (m : Nat) (body : List Event) :
    (concurrencyBracket r m body).getLast? = some (Event.releaseSlot r) := by
  unfold concurrencyBracket
  exact List.getLast?_concat _

lemma subprocess_events_eq (decode : List Nat → String) (m : Nat)
    (cfg : SubprocessConfig) (w : WorldEnv) :
    (subprocess decode m cfg w).2 =
      concurrencyBracket "subprocesses" m
        (if w.spawnFails then []
         else (run_command_timeout decode w.environ cfg w.child).2) := by
  unfold subprocess
  by_cases h : w.spawnFails
  · simp [h]
  · rcases hrt : run_command_timeout decode w.environ cfg w.child with ⟨o, evts⟩
    cases o <;> simp [h, hrt]

/-- C4: exactly one "subprocesses" concurrency slot is acquired, as the
very first step of every invocation (before the child can be spawned),
and released exactly once, as the very last step, on every exit path:
normal return, non-zero exit, timeout, and spawn failure (the world
environment w ranges over all of these). -/
theorem subprocess_slot_acquired_released_once (decode : List Nat → String)
    (m : Nat) (cfg : SubprocessConfig) (w : WorldEnv) :
    ((subprocess decode m cfg w).2).head? =
        some (Event.acquireSlot "subprocesses" m) ∧
      ((subprocess decode m cfg w).2).getLast? =
        some (Event.releaseSlot "subprocesses") ∧
      ((subprocess decode m cfg w).2).countP isAcquireEvt = 1 ∧
      ((subprocess decode m cfg w).2).countP isReleaseEvt = 1 := by
  rw [subprocess_events_eq]
  refine ⟨concurrencyBracket_head _ _ _, concurrencyBracket_getLast _ _ _, ?_, ?_⟩
  <;> by_cases h : w.spawnFails
  · simp [h, concurrencyBracket, isAcquireEvt, isReleaseEvt]
  · obtain ⟨h1, _⟩ := run_command_timeout_no_slot decode w.environ cfg w.child
    simp [h, concurrencyBracket, List.countP_cons, List.countP_append,
      h1, isAcquireEvt, isReleaseEvt]
  · simp [h, concurrencyBracket, isAcquireEvt, isReleaseEvt]
  · obtain ⟨_, h2⟩ := run_command_timeout_no_slot decode w.environ cfg w.child
    simp [h, concurrencyBracket, List.countP_cons, List.countP_append,
      h2, isAcquireEvt, isReleaseEvt]

/-! ### Helper lemmas about result assembly -/

lemma run_command_result_returncode (decode : List Nat → String)
    (environ : List (String × String)) (cfg : SubprocessConfig)
    (child : ChildBehavior) :
    ProcResult.returncodeOf (run_command decode environ cfg child).1 =
      (if (read_stream cfg.output_limit (procStdout cfg.capture_output child)).2 ||
          (read_stream cfg.output_limit (procStderr cfg.capture_output child)).2
       then child.killExitCode else child.exitCode) := by
  unfold run_command
  by_cases ht : cfg.text <;> simp [ht, ProcResult.returncodeOf]

lemma run_command_result_success (decode : List Nat → String)
    (environ : List (String × String)) (cfg : SubprocessConfig)
    (child : ChildBehavior) :
    ProcResult.successOf (run_command decode environ cfg child).1 =
      (ProcResult.returncodeOf (run_command decode environ cfg child).1 == 0) := by
  unfold run_command
  by_cases ht : cfg.text <;>
    simp [ht, ProcResult.successOf, ProcResult.returncodeOf]

lemma run_command_timeout_ok (decode : List Nat → String)
    (environ : List (String × String)) (cfg : SubprocessConfig)
    (child : ChildBehavior)
    (hdone : timeoutTruthy cfg.timeout = true →
      child.completesBeforeDeadline = true) :
    (run_command_timeout decode environ cfg child).1 =
      SubprocessOutcome.ok (run_command decode environ cfg child).1 := by
  unfold run_command_timeout
  by_cases ht : timeoutTruthy cfg.timeout
  · simp [ht, hdone ht]
  · simp [ht]

lemma subprocess_outcome_eq (decode : List Nat → String) (m : Nat)
    (cfg : SubprocessConfig) (w : WorldEnv) (h : w.spawnFails = false) :
    (subprocess decode m cfg w).1 =
      match (run_command_timeout decode w.environ cfg w.child).1 with
      | SubprocessOutcome.ok r => InvocationOutcome.ok r
      | SubprocessOutcome.timeoutError => InvocationOutcome.timeoutError := by
  unfold subprocess
  rcases hrt : run_command_timeout decode w.environ cfg w.child with ⟨o, evts⟩
  cases o <;> simp [h, hrt]

/-- C1: for every invocation that spawns and completes without hitting a
configured deadline, the call returns the normal ExecResult assembled by
run_command (no exception), and when neither stream reader killed the
child, the returncode field is exactly the exit code the child reported
and success holds if and only if that exit code is 0; in particular a
non-zero exit code yields a normal result with success false. -/
theorem subprocess_success_iff_exit_zero (decode : List Nat → String)
    (m : Nat) (cfg : SubprocessConfig) (w : WorldEnv)
    (hspawn : w.spawnFails = false)
    (hdone : timeoutTruthy cfg.timeout = true →
      w.child.completesBeforeDeadline = true)
    (hnokill1 :
      (read_stream cfg.output_limit (procStdout cfg.capture_output w.child)).2
        = false)
    (hnokill2 :
      (read_stream cfg.output_limit (procStderr cfg.capture_output w.child)).2
        = false) :
    (subprocess decode m cfg w).1 =
        InvocationOutcome.ok (run_command decode w.environ cfg w.child).1 ∧
      ProcResult.returncodeOf (run_command decode w.environ cfg w.child).1 =
        w.child.exitCode ∧
      (ProcResult.successOf (run_command decode w.environ cfg w.child).1 = true ↔
        w.child.exitCode = 0) := by
  have hrc : ProcResult.returncodeOf (run_command decode w.environ cfg w.child).1
      = w.child.exitCode := by
    rw [run_command_result_returncode, hnokill1, hnokill2]
    simp
  refine ⟨?_, hrc, ?_⟩
  · rw [subprocess_outcome_eq decode m cfg w hspawn,
      run_command_timeout_ok decode w.environ cfg w.child hdone]
  · rw [run_command_result_success, hrc]
    exact beq_iff_eq

/-- Witness for C1: a child that exits with code 1 yields a normal result
with success false and returncode 1. -/
theorem subprocess_success_iff_exit_zero_witness :
    (subprocess (fun _ => "") 1 { args := CommandArgs.argv ["false"] }
        { environ := [], spawnFails := false,
          child := { stdoutChunks := [], stderrChunks := [], exitCode := 1,
                     killExitCode := -9, completesBeforeDeadline := true,
                     graceExitCode := none } }).1 =
        InvocationOutcome.ok
          (run_command (fun _ => "") [] { args := CommandArgs.argv ["false"] }
            { stdoutChunks := [], stderrChunks := [], exitCode := 1,
              killExitCode := -9, completesBeforeDeadline := true,
              graceExitCode := none }).1 ∧
      ProcResult.returncodeOf
          (run_command (fun _ => "") [] { args := CommandArgs.argv ["false"] }
            { stdoutChunks := [], stderrChunks := [], exitCode := 1,
              killExitCode := -9, completesBeforeDeadline := true,
              graceExitCode := none }).1 = (1 : Int) ∧
      (ProcResult.successOf
          (run_command (fun _ => "") [] { args := CommandArgs.argv ["false"] }
            { stdoutChunks := [], stderrChunks := [], exitCode := 1,
              killExitCode := -9, completesBeforeDeadline := true,
              graceExitCode := none }).1 = true ↔ (1 : Int) = 0) :=
  subprocess_success_iff_exit_zero (fun _ => "") 1
    { args := CommandArgs.argv ["false"] }
    { environ := [], spawnFails := false,
      child := { stdoutChunks := [], stderrChunks := [], exitCode := 1,
                 killExitCode := -9, completesBeforeDeadline := true,
                 graceExitCode := none } }
    rfl (by decide) rfl rfl

lemma run_command_timeout_expired (decode : List Nat → String)
    (environ : List (String × String)) (cfg : SubprocessConfig)
    (child : ChildBehavior) (ht : timeoutTruthy cfg.timeout = true)
    (hlate : child.completesBeforeDeadline = false) :
    (run_command_timeout decode environ cfg child).1 =
      SubprocessOutcome.timeoutError := by
  unfold run_command_timeout
  simp [ht, hlate]

/-- C2: when a truthy timeout is configured and the pipeline misses the
deadline, the invocation raises TimeoutError and never yields a result,
and before raising it runs the termination sequence: a graceful terminate
followed by the fixed two second grace sleep, then a force kill sent
exactly when the child has not exited during the grace period; in either
case the child is no longer running afterwards. -/
theorem subprocess_timeout_raises_and_terminates (decode : List Nat → String)
    (m : Nat) (cfg : SubprocessConfig) (w : WorldEnv)
    (hspawn : w.spawnFails = false)
    (ht : timeoutTruthy cfg.timeout = true)
    (hlate : w.child.completesBeforeDeadline = false) :
    (subprocess decode m cfg w).1 = InvocationOutcome.timeoutError ∧
      (∀ r, (subprocess decode m cfg w).1 ≠ InvocationOutcome.ok r) ∧
      (run_command_timeout decode w.environ cfg w.child).2 =
        Event.spawnChild (spawnedEnv w.environ cfg) ::
          terminationEvents w.child ∧
      (terminationEvents w.child).take 2 =
        [Event.terminateChild, Event.sleepSeconds 2] ∧
      (Event.killChild ∈ terminationEvents w.child ↔
        w.child.graceExitCode = none) ∧
      runningAfterCleanup w.child (terminationEvents w.child) = false := by
  have houtcome : (subprocess decode m cfg w).1 =
      InvocationOutcome.timeoutError := by
    rw [subprocess_outcome_eq decode m cfg w hspawn,
      run_command_timeout_expired decode w.environ cfg w.child ht hlate]
  refine ⟨houtcome, ?_, ?_, ?_, ?_, ?_⟩
  · intro r
    rw [houtcome]
    exact fun hcontra => InvocationOutcome.noConfusion hcontra
  · rw [run_command_timeout_events_eq]
    simp [ht, hlate]
  · cases h : w.child.graceExitCode <;> simp [terminationEvents, h]
  · cases h : w.child.graceExitCode <;> simp [terminationEvents, h]
  · cases h : w.child.graceExitCode
    · simp only [runningAfterCleanup, terminationEvents, h]
      decide
    · simp [runningAfterCleanup, h]

/-- Witness for C2: a sleeping child under a one second timeout that is
still running after the grace period gets force killed. -/
theorem subprocess_timeout_raises_and_terminates_witness :
    (subprocess (fun _ => "") 1
        { args := CommandArgs.argv ["sleep", "10"], timeout := some 1 }
        { environ := [], spawnFails := false,
          child := { stdoutChunks := [], stderrChunks := [], exitCode := 0,
                     killExitCode := -9, completesBeforeDeadline := false,
                     graceExitCode := none } }).1 =
        InvocationOutcome.timeoutError ∧
      (∀ r, (subprocess (fun _ => "") 1
        { args := CommandArgs.argv ["sleep", "10"], timeout := some 1 }
        { environ := [], spawnFails := false,
          child := { stdoutChunks := [], stderrChunks := [], exitCode := 0,
                     killExitCode := -9, completesBeforeDeadline := false,
                     graceExitCode := none } }).1 ≠ InvocationOutcome.ok r) ∧
      (run_command_timeout (fun _ => "") []
        { args := CommandArgs.argv ["sleep", "10"], timeout := some 1 }
        { stdoutChunks := [], stderrChunks := [], exitCode := 0,
          killExitCode := -9, completesBeforeDeadline := false,
          graceExitCode := none }).2 =
        Event.spawnChild (spawnedEnv []
            { args := CommandArgs.argv ["sleep", "10"], timeout := some 1 }) ::
          terminationEvents
            { stdoutChunks := [], stderrChunks := [], exitCode := 0,
              killExitCode := -9, completesBeforeDeadline := false,
              graceExitCode := none } ∧
      (terminationEvents
          { stdoutChunks := [], stderrChunks := [], exitCode := 0,
            killExitCode := -9, completesBeforeDeadline := false,
            graceExitCode := none }).take 2 =
        [Event.terminateChild, Event.sleepSeconds 2] ∧
      (Event.killChild ∈ terminationEvents
          { stdoutChunks := [], stderrChunks := [], exitCode := 0,
            killExitCode := -9, completesBeforeDeadline := false,
            graceExitCode := none } ↔
        ({ stdoutChunks := [], stderrChunks := [], exitCode := 0,
           killExitCode := -9, completesBeforeDeadline := false,
           graceExitCode := none } : ChildBehavior).graceExitCode = none) ∧
      runningAfterCleanup
        { stdoutChunks := [], stderrChunks := [], exitCode := 0,
          killExitCode := -9, completesBeforeDeadline := false,
          graceExitCode := none }
        (terminationEvents
          { stdoutChunks := [], stderrChunks := [], exitCode := 0,
            killExitCode := -9, completesBeforeDeadline := false,
            graceExitCode := none }) = false :=
  subprocess_timeout_raises_and_terminates (fun _ => "") 1
    { args := CommandArgs.argv ["sleep", "10"], timeout := some 1 }
    { environ := [], spawnFails := false,
      child := { stdoutChunks := [], stderrChunks := [], exitCode := 0,
                 killExitCode := -9, completesBeforeDeadline := false,
                 graceExitCode := none } }
    rfl rfl rfl

/-- C10: a configured timeout of 0 is falsy under the `if timeout:` test,
so the call behaves exactly as if no timeout had been configured: its
outcome and trace coincide with the no-timeout invocation, and it always
yields the normal result, never TimeoutError. -/
theorem timeout_zero_same_as_no_timeout (decode : List Nat → String)
    (environ : List (String × String)) (cfg : SubprocessConfig)
    (child : ChildBehavior) (h : cfg.timeout = some 0) :
    run_command_timeout decode environ cfg child =
        run_command_timeout decode environ
          { cfg with timeout := none } child ∧
      (run_command_timeout decode environ cfg child).1 =
        SubprocessOutcome.ok (run_command decode environ cfg child).1 := by
  have ht : timeoutTruthy cfg.timeout = false := by rw [h]; rfl
  constructor
  · unfold run_command_timeout
    rw [ht]
    rfl
  · exact run_command_timeout_ok decode environ cfg child
      (fun hcontra => absurd hcontra (by rw [ht]; exact Bool.false_ne_true))

/-- Witness for C10: with timeout 0 a pipeline that would overrun any
deadline still completes normally. -/
theorem timeout_zero_same_as_no_timeout_witness :
    (run_command_timeout (fun _ => "") []
          { args := CommandArgs.argv ["sleep", "10"], timeout := some 0 }
          { stdoutChunks := [], stderrChunks := [], exitCode := 0,
            killExitCode := -9, completesBeforeDeadline := false,
            graceExitCode := none } =
        run_command_timeout (fun _ => "") []
          { args := CommandArgs.argv ["sleep", "10"], timeout := none }
          { stdoutChunks := [], stderrChunks := [], exitCode := 0,
            killExitCode := -9, completesBeforeDeadline := false,
            graceExitCode := none }) ∧
      (run_command_timeout (fun _ => "") []
          { args := CommandArgs.argv ["sleep", "10"], timeout := some 0 }
          { stdoutChunks := [], stderrChunks := [], exitCode := 0,
            killExitCode := -9, completesBeforeDeadline := false,
            graceExitCode := none }).1 =
        SubprocessOutcome.ok
          (run_command (fun _ => "") []
            { args := CommandArgs.argv ["sleep", "10"], timeout := some 0 }
            { stdoutChunks := [], stderrChunks := [], exitCode := 0,
              killExitCode := -9, completesBeforeDeadline := false,
              graceExitCode := none }).1 := by
  have h := timeout_zero_same_as_no_timeout (fun _ => "") []
    { args := CommandArgs.argv ["sleep", "10"], timeout := some 0 }
    { stdoutChunks := [], stderrChunks := [], exitCode := 0,
      killExitCode := -9, completesBeforeDeadline := false,
      graceExitCode := none } rfl
  exact ⟨h.1, h.2⟩

/-- C5: with capture disabled the child inherits the parent stdout/stderr
(no pipes are created, so there are no stream readers and read_stream
returns immediately), and the returned result carries empty stdout and
stderr regardless of everything the child wrote. -/
theorem no_capture_empty_result (decode : List Nat → String)
    (environ : List (String × String)) (cfg : SubprocessConfig)
    (child : ChildBehavior) (h : cfg.capture_output = false) :
    stdoutWiring cfg.capture_output = Stdio.inherit ∧
      stderrWiring cfg.capture_output = Stdio.inherit ∧
      procStdout cfg.capture_output child = none ∧
      procStderr cfg.capture_output child = none ∧
      read_stream cfg.output_limit (procStdout cfg.capture_output child) =
        ([], false) ∧
      read_stream cfg.output_limit (procStderr cfg.capture_output child) =
        ([], false) ∧
      ProcResult.stdoutEmpty (run_command decode environ cfg child).1 = true ∧
      ProcResult.stderrEmpty (run_command decode environ cfg child).1 = true := by
  refine ⟨by simp [stdoutWiring, h], by simp [stderrWiring, h],
    by simp [procStdout, h], by simp [procStderr, h],
    by simp [read_stream, procStdout, h], by simp [read_stream, procStderr, h],
    ?_, ?_⟩ <;>
  · unfold run_command
    by_cases htext : cfg.text <;>
      simp [htext, h, ProcResult.stdoutEmpty, ProcResult.stderrEmpty]

/-- Witness for C5: the child writes bytes on both streams, capture is
off, and the result still reports empty output. -/
theorem no_capture_empty_result_witness :
    stdoutWiring false = Stdio.inherit ∧
      stderrWiring false = Stdio.inherit ∧
      procStdout false
        { stdoutChunks := [[104, 105]], stderrChunks := [[33]], exitCode := 0,
          killExitCode := -9, completesBeforeDeadline := true,
          graceExitCode := none } = none ∧
      procStderr false
        { stdoutChunks := [[104, 105]], stderrChunks := [[33]], exitCode := 0,
          killExitCode := -9, completesBeforeDeadline := true,
          graceExitCode := none } = none ∧
      read_stream none (procStdout false
        { stdoutChunks := [[104, 105]], stderrChunks := [[33]], exitCode := 0,
          killExitCode := -9, completesBeforeDeadline := true,
          graceExitCode := none }) = ([], false) ∧
      read_stream none (procStderr false
        { stdoutChunks := [[104, 105]], stderrChunks := [[33]], exitCode := 0,
          killExitCode := -9, completesBeforeDeadline := true,
          graceExitCode := none }) = ([], false) ∧
      ProcResult.stdoutEmpty (run_command (fun _ => "ignored") []
        { args := CommandArgs.shellStr "echo hi", capture_output := false }
        { stdoutChunks := [[104, 105]], stderrChunks := [[33]], exitCode := 0,
          killExitCode := -9, completesBeforeDeadline := true,
          graceExitCode := none }).1 = true ∧
      ProcResult.stderrEmpty (run_command (fun _ => "ignored") []
        { args := CommandArgs.shellStr "echo hi", capture_output := false }
        { stdoutChunks := [[104, 105]], stderrChunks := [[33]], exitCode := 0,
          killExitCode := -9, completesBeforeDeadline := true,
          graceExitCode := none }).1 = true := by
  have h := no_capture_empty_result (fun _ => "ignored") []
    { args := CommandArgs.shellStr "echo hi", capture_output := false }
    { stdoutChunks := [[104, 105]], stderrChunks := [[33]], exitCode := 0,
      killExitCode := -9, completesBeforeDeadline := true,
      graceExitCode := none } rfl
  exact h

/-- C6: when an input payload is supplied the stdin pipe receives exactly
one write of the full payload, then a drain and a close; with no payload
stdin is closed immediately with nothing written. In both cases the close
is the final stdin action, so the child sees end of file after at most
the supplied payload, and these actions open the post-spawn trace of
run_command. -/
theorem stdin_full_write_then_close (decode : List Nat → String)
    (environ : List (String × String)) (cfg : SubprocessConfig)
    (child : ChildBehavior) (data : List Nat) :
    stdinEvents (some data) =
        [Event.stdinWrite data, Event.stdinDrain, Event.stdinClose] ∧
      stdinEvents none = [Event.stdinClose] ∧
      stdinBytesWritten (stdinEvents cfg.input) = cfg.input.getD [] ∧
      (stdinEvents cfg.input).getLast? = some Event.stdinClose ∧
      ∃ rest, (run_command decode environ cfg child).2 =
        Event.spawnChild (spawnedEnv environ cfg) ::
          (stdinEvents cfg.input ++ rest) := by
  refine ⟨rfl, rfl, ?_, ?_, ?_⟩
  · cases cfg.input <;> rfl
  · cases cfg.input <;> rfl
  · exact ⟨_, run_command_events_eq decode environ cfg child⟩

/-- C7: the environment handed to the spawned child is the parent
environment with the caller-supplied variables merged over it: a key
absent from the caller env keeps its inherited value, a key present in
the caller env takes the caller value, and the spawn event of every
run_command trace carries exactly this merged environment. -/
theorem child_env_merged_over_parent (decode : List Nat → String)
    (environ : List (String × String)) (cfg : SubprocessConfig)
    (child : ChildBehavior) (k : String)
    (hnd : (cfg.env.map Prod.fst).Nodup) :
    (dictLookup cfg.env k = none →
        dictLookup (spawnedEnv environ cfg) k = dictLookup environ k) ∧
      (∀ v, dictLookup cfg.env k = some v →
        dictLookup (spawnedEnv environ cfg) k = some v) ∧
      (run_command decode environ cfg child).2.head? =
        some (Event.spawnChild (spawnedEnv environ cfg)) := by
  have hm := dictMerge_lookup cfg.env environ k hnd
  refine ⟨?_, ?_, ?_⟩
  · intro hnone
    rw [spawnedEnv, hm, hnone]
  · intro v hv
    rw [spawnedEnv, hm, hv]
  · rw [run_command_events_eq]
    rfl

/-- Witness for C7: PATH is overridden by the caller env while HOME keeps
its inherited value (the overridden lookup is instantiated here). -/
theorem child_env_merged_over_parent_witness :
    ((dictLookup [("PATH", "b")] "PATH" = none →
        dictLookup (spawnedEnv [("PATH", "a"), ("HOME", "h")]
          { args := CommandArgs.shellStr "env", env := [("PATH", "b")] })
          "PATH" = dictLookup [("PATH", "a"), ("HOME", "h")] "PATH") ∧
      (∀ v, dictLookup [("PATH", "b")] "PATH" = some v →
        dictLookup (spawnedEnv [("PATH", "a"), ("HOME", "h")]
          { args := CommandArgs.shellStr "env", env := [("PATH", "b")] })
          "PATH" = some v) ∧
      (run_command (fun _ => "") [("PATH", "a"), ("HOME", "h")]
        { args := CommandArgs.shellStr "env", env := [("PATH", "b")] }
        { stdoutChunks := [], stderrChunks := [], exitCode := 0,
          killExitCode := -9, completesBeforeDeadline := true,
          graceExitCode := none }).2.head? =
        some (Event.spawnChild (spawnedEnv [("PATH", "a"), ("HOME", "h")]
          { args := CommandArgs.shellStr "env", env := [("PATH", "b")] }))) ∧
    dictLookup (spawnedEnv [("PATH", "a"), ("HOME", "h")]
      { args := CommandArgs.shellStr "env", env := [("PATH", "b")] })
      "HOME" = some "h" := by
  constructor
  · exact child_env_merged_over_parent (fun _ => "")
      [("PATH", "a"), ("HOME", "h")]
      { args := CommandArgs.shellStr "env", env := [("PATH", "b")] }
      { stdoutChunks := [], stderrChunks := [], exitCode := 0,
        killExitCode := -9, completesBeforeDeadline := true,
        graceExitCode := none } "PATH" (by decide)
  · decide

/-- C3: with an output limit L configured on a captured stream, the reader
accumulates at most L + 8192 bytes (each read returns at most one 8 KiB
chunk and the limit test runs after each append), it kills the child
exactly when the accumulated bytes exceed L, what was read up to that
point is a prefix of the stream and is retained in the result, and a kill
by the reader puts a kill event in the invocation trace. -/
theorem read_stream_limit_bound_and_kill (decode : List Nat → String)
    (environ : List (String × String)) (cfg : SubprocessConfig)
    (child : ChildBehavior) (L : Nat) (chunks : List (List Nat))
    (hchunks : ∀ c ∈ chunks, c.length ≤ 8192)
    (hlim : cfg.output_limit = some L) (hcap : cfg.capture_output = true)
    (htext : cfg.text = false) (hchild : child.stdoutChunks = chunks) :
    (read_stream (some L) (some chunks)).1.length ≤ L + 8192 ∧
      ((read_stream (some L) (some chunks)).2 = true ↔
        L < (read_stream (some L) (some chunks)).1.length) ∧
      (∃ k, (read_stream (some L) (some chunks)).1 =
        (chunks.take k).flatten) ∧
      ProcResult.stdoutBytes (run_command decode environ cfg child).1 =
        some (read_stream (some L) (some chunks)).1 ∧
      ((read_stream (some L) (some chunks)).2 = true →
        Event.killChild ∈ (run_command decode environ cfg child).2) := by
  refine ⟨?_, ?_, ?_, ?_, ?_⟩
  · exact read_stream_loop_length_le L chunks [] hchunks (by simp)
  · exact read_stream_loop_killed_iff L chunks [] (by simp)
  · obtain ⟨k, hk⟩ := read_stream_loop_take (some L) chunks []
    exact ⟨k, by simpa using hk⟩
  · unfold run_command
    simp [htext, hcap, hlim, procStdout, hchild, ProcResult.stdoutBytes]
  · intro hk
    rw [run_command_events_eq]
    have : (read_stream cfg.output_limit (procStdout cfg.capture_output child)).2
        = true := by
      rw [hcap, hlim, procStdout, if_pos rfl, hchild]
      exact hk
    simp [killEvents, this]

/-- Witness for C3: limit 4 with two 3-byte chunks overshoots to 6 bytes,
kills the child, and the 6 retained bytes stay within 4 + 8192. -/
theorem read_stream_limit_bound_and_kill_witness :
    ((∀ c ∈ [[1, 2, 3], [4, 5, 6]], List.length c ≤ 8192) ∧
      (read_stream (some 4) (some [[1, 2, 3], [4, 5, 6]])).1.length ≤
        4 + 8192) ∧
      ((read_stream (some 4) (some [[1, 2, 3], [4, 5, 6]])).2 = true ↔
        4 < (read_stream (some 4) (some [[1, 2, 3], [4, 5, 6]])).1.length) ∧
      (∃ k, (read_stream (some 4) (some [[1, 2, 3], [4, 5, 6]])).1 =
        ([[1, 2, 3], [4, 5, 6]].take k).flatten) ∧
      ProcResult.stdoutBytes (run_command (fun _ => "") []
        { args := CommandArgs.shellStr "yes", text := false,
          capture_output := true, output_limit := some 4 }
        { stdoutChunks := [[1, 2, 3], [4, 5, 6]], stderrChunks := [],
          exitCode := 0, killExitCode := -9, completesBeforeDeadline := true,
          graceExitCode := none }).1 =
        some (read_stream (some 4) (some [[1, 2, 3], [4, 5, 6]])).1 ∧
      ((read_stream (some 4) (some [[1, 2, 3], [4, 5, 6]])).2 = true →
        Event.killChild ∈ (run_command (fun _ => "") []
          { args := CommandArgs.shellStr "yes", text := false,
            capture_output := true, output_limit := some 4 }
          { stdoutChunks := [[1, 2, 3], [4, 5, 6]], stderrChunks := [],
            exitCode := 0, killExitCode := -9, completesBeforeDeadline := true,
            graceExitCode := none }).2) := by
  have h := read_stream_limit_bound_and_kill (fun _ => "") []
    { args := CommandArgs.shellStr "yes", text := false,
      capture_output := true, output_limit := some 4 }
    { stdoutChunks := [[1, 2, 3], [4, 5, 6]], stderrChunks := [],
      exitCode := 0, killExitCode := -9, completesBeforeDeadline := true,
      graceExitCode := none }
    4 [[1, 2, 3], [4, 5, 6]] (by decide) rfl rfl rfl rfl
  exact ⟨⟨by decide, h.1⟩, h.2.1, h.2.2.1, h.2.2.2.1, h.2.2.2.2⟩

lemma observedLimits_append (cpu : Option Nat) (ops1 ops2 : List ConfigOp)
    (s : Nat) :
    observedLimits cpu (ops1 ++ ops2) s =
      observedLimits cpu ops1 s ++
        observedLimits cpu ops2 (configState cpu ops1 s) := by
  induction ops1 generalizing s with
  | nil => simp [observedLimits, configState]
  | cons op rest ih => cases op <;> simp [observedLimits, configState, ih]

/-- C8: the configured maximum defaults to the reported CPU count when
truthy and to 1 otherwise (so it is always at least 1), the
initialization entry point stores a new value, and since each invocation
reads the state at slot-acquisition time, re-initialising changes the
limit observed by later invocations while earlier ones are untouched. -/
theorem max_subprocesses_defaults_and_updates (cpu : Option Nat) (n v s : Nat)
    (ops : List ConfigOp) (hn : n ≠ 0) (hv : v ≠ 0) :
    default_max_subprocesses (some n) = n ∧
      default_max_subprocesses (some 0) = 1 ∧
      default_max_subprocesses none = 1 ∧
      1 ≤ default_max_subprocesses cpu ∧
      init_max_subprocesses cpu (some v) = v ∧
      init_max_subprocesses cpu none = default_max_subprocesses cpu ∧
      observedLimits cpu
          (ops ++ [ConfigOp.initMax (some v), ConfigOp.invoke]) s =
        observedLimits cpu ops s ++ [v] := by
  have hinit : init_max_subprocesses cpu (some v) = v := by
    simp [init_max_subprocesses, hv]
  refine ⟨by simp [default_max_subprocesses, hn], rfl, rfl, ?_, hinit, rfl, ?_⟩
  · cases cpu with
    | none => exact le_refl 1
    | some c =>
      by_cases hc : c = 0
      · simp [default_max_subprocesses, hc]
      · simp only [default_max_subprocesses, if_pos (bne_iff_ne.mpr hc)]
        exact Nat.one_le_iff_ne_zero.mpr hc
  · rw [observedLimits_append]
    simp [observedLimits, hinit]

/-- Witness for C8: with 4 CPUs, an invocation sees limit 4, and after
re-initialising to 2 the next invocation sees 2. -/
theorem max_subprocesses_defaults_and_updates_witness :
    (4 ≠ 0 ∧ 2 ≠ 0) ∧
      default_max_subprocesses (some 4) = 4 ∧
      default_max_subprocesses (some 0) = 1 ∧
      default_max_subprocesses none = 1 ∧
      1 ≤ default_max_subprocesses (some 4) ∧
      init_max_subprocesses (some 4) (some 2) = 2 ∧
      init_max_subprocesses (some 4) none =
        default_max_subprocesses (some 4) ∧
      observedLimits (some 4)
          ([ConfigOp.invoke] ++ [ConfigOp.initMax (some 2), ConfigOp.invoke])
          4 =
        observedLimits (some 4) [ConfigOp.invoke] 4 ++ [2] := by
  have h := max_subprocesses_defaults_and_updates (some 4) 4 2 4
    [ConfigOp.invoke] (by decide) (by decide)
  exact ⟨⟨by decide, by decide⟩, h.1, h.2.1, h.2.2.1, h.2.2.2.1, h.2.2.2.2.1,
    h.2.2.2.2.2.1, h.2.2.2.2.2.2⟩

/-- C9: when the stdout reader kills the child for exceeding the output
limit, no exception is raised: the invocation still returns the normal
ExecResult, its returncode is the exit status the kill produced (so a
non-zero kill status means success is false), and the stderr stream is
still drained to end of file, its full content staying available for the
result. -/
theorem limit_kill_returns_normal_result (decode : List Nat → String)
    (m : Nat) (cfg : SubprocessConfig) (w : WorldEnv) (L : Nat)
    (hspawn : w.spawnFails = false)
    (hdone : timeoutTruthy cfg.timeout = true →
      w.child.completesBeforeDeadline = true)
    (hcap : cfg.capture_output = true) (hlim : cfg.output_limit = some L)
    (hkill : (read_stream (some L) (some w.child.stdoutChunks)).2 = true) :
    (subprocess decode m cfg w).1 =
        InvocationOutcome.ok (run_command decode w.environ cfg w.child).1 ∧
      ProcResult.returncodeOf (run_command decode w.environ cfg w.child).1 =
        w.child.killExitCode ∧
      (w.child.killExitCode ≠ 0 →
        ProcResult.successOf (run_command decode w.environ cfg w.child).1 =
          false) ∧
      ((∀ c ∈ w.child.stderrChunks, c ≠ []) →
        (w.child.stderrChunks.flatten).length ≤ L →
        (read_stream (some L) (some w.child.stderrChunks)).1 =
          w.child.stderrChunks.flatten) := by
  have hkill2 :
      (read_stream cfg.output_limit (procStdout cfg.capture_output w.child)).2
        = true := by
    rw [hcap, hlim, procStdout, if_pos rfl]
    exact hkill
  have hrc : ProcResult.returncodeOf (run_command decode w.environ cfg w.child).1
      = w.child.killExitCode := by
    rw [run_command_result_returncode, hkill2]
    simp
  refine ⟨?_, hrc, ?_, ?_⟩
  · rw [subprocess_outcome_eq decode m cfg w hspawn,
      run_command_timeout_ok decode w.environ cfg w.child hdone]
  · intro hne
    rw [run_command_result_success, hrc]
    exact beq_eq_false_iff_ne.mpr hne
  · intro hnonempty hlen
    show (read_stream_loop (some L) w.child.stderrChunks []).1 = _
    rw [read_stream_loop_drain L w.child.stderrChunks [] hnonempty
      (by simpa using hlen)]
    simp

/-- Witness for C9: stdout overshoots limit 4 and the child is killed
with status -9; the result is still a normal failure result and stderr
is fully drained. -/
theorem limit_kill_returns_normal_result_witness :
    (subprocess (fun _ => "") 1
        { args := CommandArgs.shellStr "yes", text := false,
          capture_output := true, output_limit := some 4 }
        { environ := [], spawnFails := false,
          child := { stdoutChunks := [[1, 2, 3], [4, 5, 6]],
                     stderrChunks := [[7]], exitCode := 0, killExitCode := -9,
                     completesBeforeDeadline := true,
                     graceExitCode := none } }).1 =
        InvocationOutcome.ok (run_command (fun _ => "") []
          { args := CommandArgs.shellStr "yes", text := false,
            capture_output := true, output_limit := some 4 }
          { stdoutChunks := [[1, 2, 3], [4, 5, 6]], stderrChunks := [[7]],
            exitCode := 0, killExitCode := -9, completesBeforeDeadline := true,
            graceExitCode := none }).1 ∧
      ProcResult.returncodeOf (run_command (fun _ => "") []
          { args := CommandArgs.shellStr "yes", text := false,
            capture_output := true, output_limit := some 4 }
          { stdoutChunks := [[1, 2, 3], [4, 5, 6]], stderrChunks := [[7]],
            exitCode := 0, killExitCode := -9, completesBeforeDeadline := true,
            graceExitCode := none }).1 = (-9 : Int) ∧
      ((-9 : Int) ≠ 0 →
        ProcResult.successOf (run_command (fun _ => "") []
          { args := CommandArgs.shellStr "yes", text := false,
            capture_output := true, output_limit := some 4 }
          { stdoutChunks := [[1, 2, 3], [4, 5, 6]], stderrChunks := [[7]],
            exitCode := 0, killExitCode := -9, completesBeforeDeadline := true,
            graceExitCode := none }).1 = false) ∧
      ((∀ c ∈ [[7]], c ≠ ([] : List Nat)) →
        ([[7]] : List (List Nat)).flatten.length ≤ 4 →
        (read_stream (some 4) (some [[7]])).1 =
          ([[7]] : List (List Nat)).flatten) := by
  have h := limit_kill_returns_normal_result (fun _ => "") 1
    { args := CommandArgs.shellStr "yes", text := false,
      capture_output := true, output_limit := some 4 }
    { environ := [], spawnFails := false,
      child := { stdoutChunks := [[1, 2, 3], [4, 5, 6]],
                 stderrChunks := [[7]], exitCode := 0, killExitCode := -9,
                 completesBeforeDeadline := true, graceExitCode := none } }
    4 rfl (by decide) rfl rfl (by decide)
  exact h

end Inspect
